import Mathlib

/-!
Shallow embedding of the GuoCeng/time-wheel timer service.

The authoritative source under verification is `src/timer/timer.go`
(`SystemTimer` and its methods `Add`, `addTimerTaskEntry`, `AdvanceClock`,
`Size`, `Shutdown`, and the constructor `NewSystemTimer`).  The collaborators
it uses (`Task`, `TaskEntry`, `TaskList`, `TimingWheel`, `queue.DelayQueue`)
belong to the same repository but their sources are not available here; they
are modelled from the specification (sections 4.1-4.4) and each such
definition is marked `Modelled from the spec:` in its doc comment.

Time values are Go `time.Duration` nanosecond counts, embedded as `Int`.
Running a task's action is embedded as emitting an effect value; an effect
records whether the action was dispatched on a freshly spawned goroutine
(`go func() { ... }()` in the source) or run inline on the calling thread.
-/

namespace TimeWheel

/-- A scheduled unit of work: a delay (Go `time.Duration`, nanoseconds) and a
zero-argument action, identified here by a numeric id; invoking the action is
embedded as emitting an effect carrying this id. -/
structure Task where
  delayMs : Int
  actionId : Nat
deriving DecidableEq, Repr

/-- Modelled from the spec: a task entry wraps an owned task with an absolute
expiration timestamp and a cancellation flag (4.1).  The sibling links and the
bucket back-reference of the source are represented by plain list membership
in the owning bucket. -/
structure TaskEntry where
  task : Task
  expirationMs : Int
  cancelledFlag : Bool
deriving DecidableEq, Repr

/-- Modelled from the spec: a fresh task entry is created at submission with
the given absolute expiration and is not cancelled. -/
def NewTaskEntry (task : Task) (expirationMs : Int) : TaskEntry :=
  ⟨task, expirationMs, false⟩

/-- Read of the cancellation flag (`TaskEntry.cancelled()` in the source
call sites of `timer.go`). -/
def TaskEntry.cancelled (e : TaskEntry) : Bool :=
  e.cancelledFlag

/-- Modelled from the spec: `cancel()` sets the cancelled flag; idempotent;
does not unlink the entry from its bucket (lazy deletion, 4.1). -/
def TaskEntry.cancel (e : TaskEntry) : TaskEntry :=
  { e with cancelledFlag := true }

/-- Modelled from the spec: a bucket (`TaskList`): an armed expiration
(`none` is the unarmed sentinel) and the list of entries it owns (4.2). -/
structure TaskList where
  expirationMs : Option Int
  entries : List TaskEntry
deriving DecidableEq, Repr

/-- Modelled from the spec: read of the bucket's armed expiration. -/
def TaskList.getExpiration (l : TaskList) : Option Int :=
  l.expirationMs

/-- Modelled from the spec: `GetDelay` is the key under which the wake queue
orders the bucket, i.e. the bucket's armed expiration (`AdvanceClock`
"advances the wheel's clock to that bucket's expiration"); `0` when
unarmed. -/
def TaskList.GetDelay (l : TaskList) : Int :=
  l.expirationMs.getD 0

/-- Modelled from the spec: `flush` atomically detaches all entries and resets
the bucket to empty with the armed expiration back at the unarmed sentinel
(4.2); it returns the detached entries, to be visited once each by the
caller, together with the reset bucket. -/
def TaskList.flush (l : TaskList) : List TaskEntry × TaskList :=
  (l.entries, ⟨none, []⟩)

/-- Modelled from the spec: one timing-wheel level: tick duration, slot
count, current time (an exact multiple of the tick) and the fixed array of
buckets (4.4). -/
structure WheelLevel where
  tickMs : Int
  wheelSize : Nat
  currentTime : Int
  buckets : List TaskList
deriving DecidableEq, Repr

/-- Modelled from the spec: a level's window: tick duration times slot
count. -/
def WheelLevel.interval (l : WheelLevel) : Int :=
  l.tickMs * (l.wheelSize : Int)

/-- Modelled from the spec: a freshly constructed level has its current time
floored to a tick boundary and `wheelSize` unarmed empty buckets. -/
def NewWheelLevel (tickMs : Int) (wheelSize : Nat) (startMs : Int) : WheelLevel :=
  ⟨tickMs, wheelSize, startMs - startMs % tickMs, List.replicate wheelSize ⟨none, []⟩⟩

/-- Modelled from the spec: the hierarchical timing wheel: the finest level,
possibly extended by a lazily created coarser overflow wheel (4.4).  `top` is
a level whose overflow wheel has not been created yet. -/
inductive TimingWheel where
  | top (l : WheelLevel)
  | over (l : WheelLevel) (next : TimingWheel)
deriving DecidableEq, Repr

/-- The finest level of a wheel. -/
def TimingWheel.level : TimingWheel → WheelLevel
  | .top l => l
  | .over l _ => l

/-- Replace the finest level of a wheel, keeping its overflow chain. -/
def TimingWheel.withLevel : TimingWheel → WheelLevel → TimingWheel
  | .top _, l => .top l
  | .over _ n, l => .over l n

/-- Modelled from the spec: placing an entry into the bucket for its slot:
`slot = floor(expiration / tick) mod wheelSize`; the bucket's expiration is
armed at the entry's expiration rounded down to the level's tick (4.4 step
3). -/
def placeAt (l : WheelLevel) (e : TaskEntry) : WheelLevel :=
  let idx : Nat := ((e.expirationMs / l.tickMs) % (l.wheelSize : Int)).toNat
  let old : TaskList := l.buckets.getD idx ⟨none, []⟩
  let slotExp : Int := e.expirationMs - e.expirationMs % l.tickMs
  { l with buckets := l.buckets.set idx ⟨some slotExp, old.entries ++ [e]⟩ }

/-- Modelled from the spec: `TimingWheel.add` (4.4): reject cancelled
entries; reject entries already due at this level's resolution (signalling
immediate execution to the caller); place entries within the window into
their slot; otherwise delegate to the overflow wheel, creating it on first
use with tick duration equal to this level's window.  `fuel` bounds the
number of levels that may be consulted or created; with fuel exhausted the
entry is rejected. -/
def tmAdd : Nat → TimingWheel → TaskEntry → TimingWheel × Bool
  | 0, w, _ => (w, false)
  | fuel + 1, w, e =>
    if e.cancelledFlag then (w, false)
    else if e.expirationMs < w.level.currentTime + w.level.tickMs then (w, false)
    else if e.expirationMs < w.level.currentTime + w.level.interval then
      (w.withLevel (placeAt w.level e), true)
    else
      match w with
      | .top l =>
          let r := tmAdd fuel (.top (NewWheelLevel l.interval l.wheelSize l.currentTime)) e
          (.over l r.1, r.2)
      | .over l nxt =>
          let r := tmAdd fuel nxt e
          (.over l r.1, r.2)

/-- Modelled from the spec: advancing one level's clock: if `t` has reached
the next tick boundary, the current time becomes `t` floored to a tick
boundary; otherwise nothing changes (4.4). -/
def levelAdvance (l : WheelLevel) (t : Int) : WheelLevel :=
  if l.currentTime + l.tickMs ≤ t then { l with currentTime := t - t % l.tickMs } else l

/-- Modelled from the spec: `TimingWheel.advanceClock` forwards the advance
through every constructed level (4.4). -/
def tmAdvanceClock : TimingWheel → Int → TimingWheel
  | .top l, t => .top (levelAdvance l t)
  | .over l nxt, t => .over (levelAdvance l t) (tmAdvanceClock nxt t)

/-- Number of task entries currently held in a bucket. -/
def TaskList.entryCount (l : TaskList) : Nat :=
  l.entries.length

/-- Number of task entries currently held in one level's buckets. -/
def WheelLevel.entryCount (l : WheelLevel) : Nat :=
  (l.buckets.map TaskList.entryCount).sum

/-- Number of task entries currently held anywhere in the wheel. -/
def TimingWheel.entryCount : TimingWheel → Nat
  | .top l => l.entryCount
  | .over l nxt => l.entryCount + nxt.entryCount

/-- An observable effect of running the timer code.  `spawnRun a` records
that action `a` was dispatched on a freshly spawned goroutine
(`go func() { taskEntry.task.run() }()` in the source); `inlineRun a` would
record action `a` being run inline on the calling thread. -/
inductive Eff where
  | spawnRun (actionId : Nat)
  | inlineRun (actionId : Nat)
deriving DecidableEq, Repr

/-- True for effects dispatched on a spawned goroutine. -/
def Eff.isSpawned : Eff → Bool
  | .spawnRun _ => true
  | .inlineRun _ => false

/-- Go's `time.Time.Nanosecond()`: the nanosecond offset within the current
second, in `[0, 1e9)` — a narrow sub-second component of the clock reading,
not the full timestamp. -/
def goNanosecond (nowNs : Int) : Int :=
  nowNs % 1000000000

/-- From the source (`SystemTimer.Add`): the absolute expiration assigned to
a submitted task is `task.delayMs + time.Duration(time.Now().Nanosecond())`:
the delay plus the narrow nanosecond-within-second component of the wall
clock. -/
def submitExpiration (nowNs : Int) (task : Task) : Int :=
  task.delayMs + goNanosecond nowNs

/-- From the source: the `SystemTimer` state: configuration, start time,
live-task counter and the root timing wheel.  The delay queue is modelled
separately (see `AdvanceClock` and `TimerQ`). -/
structure SystemTimer where
  tickMs : Int
  wheelSize : Nat
  startMs : Int
  taskCounter : Int
  timingWheel : TimingWheel
deriving DecidableEq, Repr

/-- From the source (`NewSystemTimer`): the start time is
`time.Duration(time.Now().Nanosecond())` — again the narrow sub-second
component — the task counter starts at 0, and the root wheel is created at
that start time. -/
def NewSystemTimer (tickMs : Int) (wheelSize : Nat) (nowNs : Int) : SystemTimer :=
  { tickMs := tickMs
    wheelSize := wheelSize
    startMs := goNanosecond nowNs
    taskCounter := 0
    timingWheel := .top (NewWheelLevel tickMs wheelSize (goNanosecond nowNs)) }

/-- From the source (`SystemTimer.addTimerTaskEntry`): offer the entry to the
wheel; if the wheel rejects it (already expired or cancelled) and the entry
is not cancelled, dispatch its action on a fresh goroutine.  The embedding is
total: no error is ever returned to the caller. -/
def addTimerTaskEntry (fuel : Nat) (t : SystemTimer) (e : TaskEntry) : SystemTimer × List Eff :=
  let r := tmAdd fuel t.timingWheel e
  if r.2 then ({ t with timingWheel := r.1 }, [])
  else
    ({ t with timingWheel := r.1 },
      if e.cancelled then [] else [Eff.spawnRun e.task.actionId])

/-- From the source (`SystemTimer.Add`): wrap the task as a new entry whose
expiration is `task.delayMs + time.Now().Nanosecond()` and hand it to
`addTimerTaskEntry`.  The task counter is not touched. -/
def Add (fuel : Nat) (t : SystemTimer) (nowNs : Int) (task : Task) : SystemTimer × List Eff :=
  addTimerTaskEntry fuel t (NewTaskEntry task (submitExpiration nowNs task))

/-- From the source (`SystemTimer.Size`): returns the task counter. -/
def Size (t : SystemTimer) : Int :=
  t.taskCounter

/-- From the source (`SystemTimer.Shutdown`): the body is empty; the state is
returned unchanged, no signal is sent and no flag is set. -/
def Shutdown (t : SystemTimer) : SystemTimer :=
  t

/-- A value returned by a non-nil `delayQueue.Pop`: either a bucket
(`*TaskList`) or some other object (the queue stores `interface{}` values, so
this cannot be ruled out by types in the source). -/
inductive Polled where
  | taskList (l : TaskList)
  | other
deriving DecidableEq, Repr

/-- From the source (the loop body of `SystemTimer.AdvanceClock`): for one
polled bucket, advance the wheel clock to the bucket's `GetDelay`, then flush
it, dispatching `go e.task.run()` for every detached entry — with no
re-offer to the wheel and no cancellation check. -/
def flushBucket (t : SystemTimer) (v : TaskList) : SystemTimer × List Eff :=
  let w := tmAdvanceClock t.timingWheel v.GetDelay
  let detached := (v.flush).1
  ({ t with timingWheel := w }, detached.map fun e => Eff.spawnRun e.task.actionId)

/-- From the source: the drain loop of `AdvanceClock`, driven by the sequence
of results the delay queue's `Pop` yields (`none` encodes a nil result, i.e.
the context fired; a trace shorter than the number of polls performed yields
`none` from then on).  A non-nil result that is not a `*TaskList` makes the
`x.(*TaskList)` type assertion panic, embedded as `Except.error ()`. -/
def advanceLoop : List (Option Polled) → SystemTimer → TaskList →
    Except Unit (SystemTimer × List Eff)
  | [], t, v => .ok (flushBucket t v)
  | none :: _, t, v => .ok (flushBucket t v)
  | some (.taskList v2) :: rest, t, v =>
      match advanceLoop rest (flushBucket t v).1 v2 with
      | .ok r => .ok (r.1, (flushBucket t v).2 ++ r.2)
      | .error u => .error u
  | some .other :: _, _, _ => .error ()

/-- From the source (`SystemTimer.AdvanceClock`): poll the delay queue; a nil
result returns `false` touching nothing; a bucket enters the drain loop and
the call returns `true`; a non-nil non-bucket result panics
(`panic("did not found TaskList")`), embedded as `Except.error ()`.  The
poll results are supplied as a trace, first element first. -/
def AdvanceClock (polls : List (Option Polled)) (t : SystemTimer) :
    Except Unit (Bool × SystemTimer × List Eff) :=
  match polls with
  | [] => .ok (false, t, [])
  | none :: _ => .ok (false, t, [])
  | some (.taskList v) :: rest =>
      match advanceLoop rest t v with
      | .ok r => .ok (true, r.1, r.2)
      | .error u => .error u
  | some .other :: _ => .error ()

/-- The effects of an `AdvanceClock` run (empty when the run panicked). -/
def advEffects (r : Except Unit (Bool × SystemTimer × List Eff)) : List Eff :=
  match r with
  | .ok x => x.2.2
  | .error _ => []

/-- True when, scanning the poll trace in order, a non-nil non-bucket result
appears before the first nil result (the condition under which the source's
type assertions are reached and fail). -/
def badBeforeNil : List (Option Polled) → Bool
  | [] => false
  | none :: _ => false
  | some (.taskList _) :: rest => badBeforeNil rest
  | some .other :: _ => true

/-- Timer state together with the wake queue and real time, used to settle
the blocking behaviour of `AdvanceClock`'s drain loop.  `now` is the current
real time; `cancelAt` is the time at which the context's cancel signal fires
(`none` = never). -/
structure TimerQ where
  timer : SystemTimer
  queue : List TaskList
  now : Int
  cancelAt : Option Int
deriving DecidableEq, Repr

/-- Remove a bucket with minimal `GetDelay` from the queue (the wake queue is
a min-priority collection keyed by armed expiration). -/
def popMin : List TaskList → Option (TaskList × List TaskList)
  | [] => none
  | v :: rest =>
      match popMin rest with
      | none => some (v, rest)
      | some m => if v.GetDelay ≤ m.1.GetDelay then some (v, rest) else some (m.1, v :: m.2)

/-- Modelled from the spec: `queue.DelayQueue.Pop` blocks the caller until
either the earliest-keyed bucket's expiration has elapsed (the bucket is
removed and returned, real time having advanced to that expiration if it had
to wait) or the cancel signal fires first (nil is returned).  Returns the
result, the remaining queue and the new real time. -/
def blockingPop (q : List TaskList) (now : Int) (cancelAt : Option Int) :
    Option TaskList × List TaskList × Int :=
  match popMin q with
  | none =>
      match cancelAt with
      | some c => (none, q, max now c)
      | none => (none, q, now)
  | some m =>
      if m.1.GetDelay ≤ now then (some m.1, m.2, now)
      else
        match cancelAt with
        | some c =>
            if c < m.1.GetDelay then (none, q, max now c)
            else (some m.1, m.2, m.1.GetDelay)
        | none => (some m.1, m.2, m.1.GetDelay)

/-- Rendering of the claim's words for the drain phase: a non-blocking poll
returns the earliest bucket only when it is already due at the current real
time; it never waits. -/
def nonBlockingPop (q : List TaskList) (now : Int) : Option TaskList × List TaskList :=
  match popMin q with
  | none => (none, q)
  | some m => if m.1.GetDelay ≤ now then (some m.1, m.2) else (none, q)

/-- From the source: the drain loop of `AdvanceClock` over the explicit queue
model: process the bucket in hand, then poll again with the same blocking
`Pop` the initial poll used, continuing while buckets are returned.  `fuel`
bounds the iterations; every pop that returns a bucket removes it from the
queue, so `queue.length` iterations suffice. -/
def drainQ : Nat → TimerQ → TaskList → TimerQ × List Eff
  | 0, s, v =>
      let p := flushBucket s.timer v
      ({ s with timer := p.1 }, p.2)
  | fuel + 1, s, v =>
      let p := flushBucket s.timer v
      let r := blockingPop s.queue s.now s.cancelAt
      match r.1 with
      | none => ({ s with timer := p.1, queue := r.2.1, now := r.2.2 }, p.2)
      | some v2 =>
          let d := drainQ fuel { s with timer := p.1, queue := r.2.1, now := r.2.2 } v2
          (d.1, p.2 ++ d.2)

/-- From the source (`SystemTimer.AdvanceClock`) over the explicit queue
model: one blocking poll; nil returns `false`; a bucket enters the drain
loop (which re-uses the same blocking poll) and the call returns `true`. -/
def AdvanceClockQ (s : TimerQ) : TimerQ × Bool × List Eff :=
  let r := blockingPop s.queue s.now s.cancelAt
  match r.1 with
  | none => ({ s with queue := r.2.1, now := r.2.2 }, false, [])
  | some v =>
      let d := drainQ s.queue.length { s with queue := r.2.1, now := r.2.2 } v
      (d.1, true, d.2)

/-- Rendering of the claim's words: after the initial blocking poll returns a
bucket, further buckets are drained with non-blocking polls only, never
re-blocking within the same invocation. -/
def drainQclaim : Nat → TimerQ → TaskList → TimerQ × List Eff
  | 0, s, v =>
      let p := flushBucket s.timer v
      ({ s with timer := p.1 }, p.2)
  | fuel + 1, s, v =>
      let p := flushBucket s.timer v
      let r := nonBlockingPop s.queue s.now
      match r.1 with
      | none => ({ s with timer := p.1, queue := r.2 }, p.2)
      | some v2 =>
          let d := drainQclaim fuel { s with timer := p.1, queue := r.2 } v2
          (d.1, p.2 ++ d.2)

/-- Rendering of the claim's words for `AdvanceClock`: blocking initial poll,
non-blocking drain. -/
def AdvanceClockQclaim (s : TimerQ) : TimerQ × Bool × List Eff :=
  let r := blockingPop s.queue s.now s.cancelAt
  match r.1 with
  | none => ({ s with queue := r.2.1, now := r.2.2 }, false, [])
  | some v =>
      let d := drainQclaim s.queue.length { s with queue := r.2.1, now := r.2.2 } v
      (d.1, true, d.2)

/-- C1: the claim says entries detached by flushing a polled bucket are
re-offered to the wheel's add and only entries add rejects (and that are not
cancelled) are executed, never directly.  The source executes every flushed
entry directly: flushing a bucket armed at 20 holding a not-yet-due entry
expiring at 25 (tick 1, 20 slots, clock advanced to 20) dispatches that
entry's action, although `tmAdd` on the advanced wheel would have accepted
(relocated) it rather than execute it. -/
theorem timer_C1_flush_runs_directly :
    advEffects (AdvanceClock
        [some (.taskList ⟨some 20, [⟨⟨25, 7⟩, 25, false⟩]⟩)]
        (NewSystemTimer 1 20 0)) = [Eff.spawnRun 7] ∧
    (tmAdd 2 (tmAdvanceClock (NewSystemTimer 1 20 0).timingWheel
        (TaskList.GetDelay ⟨some 20, [⟨⟨25, 7⟩, 25, false⟩]⟩))
        ⟨⟨25, 7⟩, 25, false⟩).2 = true := by
  constructor <;> decide

/-- C2: the claim says a cancelled entry observed during flush is skipped and
its action never invoked.  The source's flush visitor dispatches
`go e.task.run()` with no cancellation check: flushing a bucket holding a
cancelled entry dispatches its action anyway — although the submit-reject
path in the same file (`addTimerTaskEntry`) does skip cancelled entries, as
the second conjunct shows. -/
theorem timer_C2_cancelled_entry_still_runs :
    advEffects (AdvanceClock
        [some (.taskList ⟨some 5, [⟨⟨5, 9⟩, 5, true⟩]⟩)]
        (NewSystemTimer 1 20 0)) = [Eff.spawnRun 9] ∧
    (addTimerTaskEntry 2 (NewSystemTimer 1 20 0) ⟨⟨5, 9⟩, 5, true⟩).2 = [] := by
  constructor <;> decide

/-- C3: the claim says each submit increments the live counter and `Size`
returns submitted minus completed.  In the source `taskCounter` is never
incremented: `Add` leaves it unchanged in general, and concretely one
submission of a 5-tick task into a fresh timer leaves one pending entry in
the wheel, dispatches nothing, yet `Size` still returns 0. -/
theorem timer_C3_counter_never_incremented :
    (∀ (fuel : Nat) (t : SystemTimer) (nowNs : Int) (task : Task),
        ((Add fuel t nowNs task).1).taskCounter = t.taskCounter) ∧
    (Add 2 (NewSystemTimer 1 20 0) 0 ⟨5, 3⟩).2 = [] ∧
    TimingWheel.entryCount ((Add 2 (NewSystemTimer 1 20 0) 0 ⟨5, 3⟩).1).timingWheel = 1 ∧
    Size ((Add 2 (NewSystemTimer 1 20 0) 0 ⟨5, 3⟩).1) = 0 := by
  refine ⟨?_, by decide, by decide, by decide⟩
  intro fuel t nowNs task
  unfold Add addTimerTaskEntry
  dsimp only
  split <;> rfl

/-- C4: the claim says the expiration assigned at submission is `now + delay`
for a full consistent timestamp `now`, so a later submission with
equal-or-larger delay never receives a smaller expiration.  The source uses
`time.Now().Nanosecond()`, the nanosecond offset within the current second:
submitting with delay 0 at wall time 999999999 ns yields expiration
999999999, while submitting with the same delay one nanosecond later (wall
time 1000000000 ns) yields expiration 0 — the later submission receives the
smaller expiration. -/
theorem timer_C4_narrow_time_base :
    (999999999 : Int) < 1000000000 ∧
    submitExpiration 1000000000 ⟨0, 1⟩ < submitExpiration 999999999 ⟨0, 1⟩ := by
  constructor <;> decide

/-- C7: the claim says `Shutdown` signals the wake queue's blocking wait,
marks the service closed, and drops every pending entry so it never
executes.  The source's `Shutdown` has an empty body: it changes nothing of
the timer state, and a pending due bucket flushed after `Shutdown` still
dispatches its entry's action. -/
theorem timer_C7_shutdown_is_noop :
    (∀ t : SystemTimer, Shutdown t = t) ∧
    advEffects (AdvanceClock
        [some (.taskList ⟨some 3, [⟨⟨3, 6⟩, 3, false⟩]⟩)]
        (Shutdown (NewSystemTimer 1 20 0))) = [Eff.spawnRun 6] :=
  ⟨fun _ => rfl, by decide⟩

/-- C9: if the initial wake-queue poll yields no bucket (a nil result, here
the trace starting with `none`, or an exhausted trace), `AdvanceClock`
returns `false`, leaves the entire timer state — wheel current time, task
counter, every bucket's contents and armed expiration — unchanged, and
dispatches nothing. -/
theorem timer_C9_nil_poll_frame :
    ∀ (rest : List (Option Polled)) (t : SystemTimer),
      AdvanceClock (none :: rest) t = .ok (false, t, []) ∧
      AdvanceClock [] t = .ok (false, t, []) :=
  fun _ _ => ⟨rfl, rfl⟩

theorem tmAdd_cancelled (fuel : Nat) (w : TimingWheel) (e : TaskEntry)
    (h : e.cancelledFlag = true) : tmAdd fuel w e = (w, false) := by
  cases fuel with
  | zero => rfl
  | succ n => simp [tmAdd, h]

/-- C5: for every entry the wheel's add rejects at submission time, the
submit path (`addTimerTaskEntry`) dispatches the entry's action on a fresh
goroutine when the entry is not cancelled, and does nothing further — no
dispatch, state untouched — when it is cancelled; the embedding is total, so
no error is ever returned to the caller. -/
theorem timer_C5_reject_dispatch (fuel : Nat) (t : SystemTimer) (e : TaskEntry)
    (h : (tmAdd fuel t.timingWheel e).2 = false) :
    (e.cancelledFlag = false →
      (addTimerTaskEntry fuel t e).2 = [Eff.spawnRun e.task.actionId]) ∧
    (e.cancelledFlag = true →
      (addTimerTaskEntry fuel t e).2 = [] ∧ (addTimerTaskEntry fuel t e).1 = t) := by
  constructor
  · intro hc
    simp [addTimerTaskEntry, h, TaskEntry.cancelled, hc]
  · intro hc
    have hw := tmAdd_cancelled fuel t.timingWheel e hc
    simp [addTimerTaskEntry, hw, TaskEntry.cancelled, hc]

/-- Witness for C5: an already-due, non-cancelled entry (expiration 0 against
a fresh wheel whose current time is 0 with tick 1) is rejected by `tmAdd`,
and the submit path dispatches its action. -/
theorem timer_C5_reject_dispatch_witness :
    (tmAdd 1 (NewSystemTimer 1 20 0).timingWheel (NewTaskEntry ⟨0, 4⟩ 0)).2 = false ∧
    ((NewTaskEntry ⟨0, 4⟩ 0).cancelledFlag = false →
      (addTimerTaskEntry 1 (NewSystemTimer 1 20 0) (NewTaskEntry ⟨0, 4⟩ 0)).2 =
        [Eff.spawnRun 4]) :=
  ⟨by decide,
    (timer_C5_reject_dispatch 1 (NewSystemTimer 1 20 0) (NewTaskEntry ⟨0, 4⟩ 0) (by decide)).1⟩

theorem advanceLoop_error_iff (polls : List (Option Polled)) :
    ∀ (t : SystemTimer) (v : TaskList),
      (advanceLoop polls t v = .error ()) ↔ badBeforeNil polls = true := by
  induction polls with
  | nil => intro t v; simp [advanceLoop, badBeforeNil]
  | cons p rest ih =>
    intro t v
    match p with
    | none => simp [advanceLoop, badBeforeNil]
    | some .other => simp [advanceLoop, badBeforeNil]
    | some (.taskList v2) =>
        have hiv := ih (flushBucket t v).1 v2
        simp only [advanceLoop, badBeforeNil]
        cases h : advanceLoop rest (flushBucket t v).1 v2 with
        | ok r =>
            rw [h] at hiv
            simp at hiv ⊢
            exact hiv
        | error u =>
            rw [h] at hiv
            cases u
            simp at hiv ⊢
            exact hiv

/-- C8: `AdvanceClock` aborts with a panic (`Except.error`) exactly when the
wake queue yields, before yielding nil, a non-nil object that is not a
bucket; every run of the poll trace whose yielded objects are all nil or
buckets completes without panicking. -/
theorem timer_C8_panic_iff_non_bucket :
    ∀ (polls : List (Option Polled)) (t : SystemTimer),
      (AdvanceClock polls t = .error ()) ↔ badBeforeNil polls = true := by
  intro polls t
  match polls with
  | [] => simp [AdvanceClock, badBeforeNil]
  | none :: rest => simp [AdvanceClock, badBeforeNil]
  | some .other :: rest => simp [AdvanceClock, badBeforeNil]
  | some (.taskList v) :: rest =>
      have hiv := advanceLoop_error_iff rest t v
      simp only [AdvanceClock, badBeforeNil]
      cases h : advanceLoop rest t v with
      | ok r =>
          rw [h] at hiv
          simp at hiv ⊢
          exact hiv
      | error u =>
          rw [h] at hiv
          cases u
          simp at hiv ⊢
          exact hiv

/-- C6, counterexample: with two armed buckets expiring at 5 and 10, real
time 0 and no cancel signal, the source's `AdvanceClock` drains both buckets
— its drain loop re-uses the blocking poll and waits from time 5 to time 10
for the second bucket — whereas the claimed behaviour (non-blocking drain
polls) processes only the first bucket and leaves real time at 5.  The two
disagree, refuting the claim that the drain never re-blocks. -/
theorem timer_C6_blocking_drain_counterexample :
    (AdvanceClockQ ⟨NewSystemTimer 1 20 0,
        [⟨some 5, [⟨⟨5, 1⟩, 5, false⟩]⟩, ⟨some 10, [⟨⟨10, 2⟩, 10, false⟩]⟩],
        0, none⟩).2.2 = [Eff.spawnRun 1, Eff.spawnRun 2] ∧
    (AdvanceClockQ ⟨NewSystemTimer 1 20 0,
        [⟨some 5, [⟨⟨5, 1⟩, 5, false⟩]⟩, ⟨some 10, [⟨⟨10, 2⟩, 10, false⟩]⟩],
        0, none⟩).1.now = 10 ∧
    (AdvanceClockQclaim ⟨NewSystemTimer 1 20 0,
        [⟨some 5, [⟨⟨5, 1⟩, 5, false⟩]⟩, ⟨some 10, [⟨⟨10, 2⟩, 10, false⟩]⟩],
        0, none⟩).2.2 = [Eff.spawnRun 1] ∧
    (AdvanceClockQclaim ⟨NewSystemTimer 1 20 0,
        [⟨some 5, [⟨⟨5, 1⟩, 5, false⟩]⟩, ⟨some 10, [⟨⟨10, 2⟩, 10, false⟩]⟩],
        0, none⟩).1.now = 5 := by
  refine ⟨by decide, by decide, by decide, by decide⟩

/-- C6, amended: after the initial poll returns a bucket, `AdvanceClock`
advances the clock to each drained bucket's expiration and flushes it, but
drains further buckets with the same blocking poll (which may wait again
until the next bucket is due or the signal fires); it returns `true` exactly
when the initial poll returned a bucket. -/
theorem timer_C6_amended_returns_iff_first_poll :
    ∀ s : TimerQ,
      (AdvanceClockQ s).2.1 = true ↔
        ((blockingPop s.queue s.now s.cancelAt).1).isSome = true := by
  intro s
  unfold AdvanceClockQ
  dsimp only
  cases h : (blockingPop s.queue s.now s.cancelAt).1 <;> simp [h]

theorem flushBucket_all_spawned (t : SystemTimer) (v : TaskList) :
    ((flushBucket t v).2).all Eff.isSpawned = true := by
  simp [flushBucket, TaskList.flush, List.all_eq_true, Eff.isSpawned]

theorem addT_all_spawned (fuel : Nat) (t : SystemTimer) (e : TaskEntry) :
    ((addTimerTaskEntry fuel t e).2).all Eff.isSpawned = true := by
  unfold addTimerTaskEntry
  dsimp only
  split
  · rfl
  · dsimp only
    split <;> rfl

theorem advLoop_all_spawned (polls : List (Option Polled)) :
    ∀ (t : SystemTimer) (v : TaskList) (r : SystemTimer × List Eff),
      advanceLoop polls t v = .ok r → (r.2).all Eff.isSpawned = true := by
  induction polls with
  | nil =>
    intro t v r h
    simp only [advanceLoop] at h
    injection h with h2
    rw [← h2]
    exact flushBucket_all_spawned t v
  | cons p rest ih =>
    intro t v r h
    match p with
    | none =>
        simp only [advanceLoop] at h
        injection h with h2
        rw [← h2]
        exact flushBucket_all_spawned t v
    | some .other => simp [advanceLoop] at h
    | some (.taskList v2) =>
        simp only [advanceLoop] at h
        cases hh : advanceLoop rest (flushBucket t v).1 v2 with
        | ok r2 =>
            rw [hh] at h
            injection h with h2
            rw [← h2]
            simp [List.all_append, flushBucket_all_spawned t v,
              ih (flushBucket t v).1 v2 r2 hh]
        | error u =>
            rw [hh] at h
            simp at h

theorem drainQ_all_spawned :
    ∀ (fuel : Nat) (s : TimerQ) (v : TaskList),
      ((drainQ fuel s v).2).all Eff.isSpawned = true := by
  intro fuel
  induction fuel with
  | zero => intro s v; exact flushBucket_all_spawned s.timer v
  | succ n ih =>
    intro s v
    simp only [drainQ]
    cases h : (blockingPop s.queue s.now s.cancelAt).1 <;>
      simp [h, List.all_append, flushBucket_all_spawned, ih]

/-- C10: every action invocation produced by the embedded code — on the
submit-reject path (`Add` / `addTimerTaskEntry`) and during flushes in both
renderings of `AdvanceClock` — is a `spawnRun` effect (a freshly spawned
goroutine); no effect ever runs an action inline on the calling thread. -/
theorem timer_C10_always_spawned :
    (∀ (fuel : Nat) (t : SystemTimer) (nowNs : Int) (task : Task),
        ((Add fuel t nowNs task).2).all Eff.isSpawned = true) ∧
    (∀ (polls : List (Option Polled)) (t : SystemTimer),
        (advEffects (AdvanceClock polls t)).all Eff.isSpawned = true) ∧
    (∀ s : TimerQ, ((AdvanceClockQ s).2.2).all Eff.isSpawned = true) := by
  refine ⟨fun fuel t nowNs task => addT_all_spawned fuel t _, ?_, ?_⟩
  · intro polls t
    match polls with
    | [] => rfl
    | none :: rest => rfl
    | some .other :: rest => rfl
    | some (.taskList v) :: rest =>
        simp only [AdvanceClock]
        cases h : advanceLoop rest t v with
        | ok r => simpa [advEffects, h] using advLoop_all_spawned rest t v r h
        | error u => simp [advEffects, h]
  · intro s
    unfold AdvanceClockQ
    dsimp only
    cases h : (blockingPop s.queue s.now s.cancelAt).1 <;> simp [h, drainQ_all_spawned]

end TimeWheel
